import Mathlib

/-!
Verification of the browser session lifecycle manager of TheBrowserShield
(`dist/BrowserShield-Portable/services/BrowserService.js`).

The service keeps three pieces of process-wide state:
  * `activeSessions` : a JS `Map` from profile id to session record;
  * `startingProfiles`, `stoppingProfiles` : JS `Set`s of profile ids used as
    re-entrancy guards around the suspension points of `startBrowser` /
    `stopBrowser`.

We embed the JS `Map`/`Set` as association lists / lists of keys, the service
methods as pure functions over an explicit `ServiceState` (every `await`ed
external outcome — profile lookup, engine launch, navigation, handle close —
is an input supplied by an environment record), and, for the concurrency
claims, a small-step relation whose transitions are the synchronous segments
of `startBrowser` / `stopBrowser` between `await` points, interleaved
arbitrarily.
-/

namespace BrowserShield

/-! ## JS `Map` with string keys, embedded as an association list.

`mapSet` replaces the value of an existing key in place and otherwise appends,
`mapDelete` removes the (unique) entry of a key, `mapGet`/`mapHas` look up the
first entry — exactly the observable behaviour of a JS `Map` whose keys are
never duplicated. -/

def mapGet {α : Type} (m : List (String × α)) (k : String) : Option α :=
  match m with
  | [] => none
  | (k', v) :: rest => if k' = k then some v else mapGet rest k

def mapSet {α : Type} (m : List (String × α)) (k : String) (v : α) :
    List (String × α) :=
  match m with
  | [] => [(k, v)]
  | (k', v') :: rest =>
      if k' = k then (k, v) :: rest else (k', v') :: mapSet rest k v

def mapDelete {α : Type} (m : List (String × α)) (k : String) :
    List (String × α) :=
  match m with
  | [] => []
  | (k', v') :: rest =>
      if k' = k then rest else (k', v') :: mapDelete rest k

def mapHas {α : Type} (m : List (String × α)) (k : String) : Bool :=
  (mapGet m k).isSome

def keys {α : Type} (m : List (String × α)) : List String :=
  m.map Prod.fst

/-- JS `String.prototype.includes`. -/
def jsIncludes (s sub : String) : Bool :=
  decide (sub.data <:+: s.data)

/-! ## Data model -/

/-- Proxy configuration inside a profile (host/port/type are what
`startBrowser` copies into the returned summary; credentials are never
copied). -/
structure Proxy where
  host : String
  port : Nat
  protocol : String
  username : Option String := none
  password : Option String := none
  deriving Repr, DecidableEq

/-- The profile configuration fields read by `BrowserService`. -/
structure Profile where
  name : String
  userAgent : String
  viewport : String
  timezone : String
  proxy : Option Proxy := none
  defaultHeadless : Option Bool := none
  deriving Repr, DecidableEq

/-- A session record as stored in `activeSessions`
(`{ browser, page, profile, startTime, status, headless }`).  Browser and page
handles are opaque; we represent them by numeric identities.  `startTime` is
the creation timestamp in milliseconds (the JS code stores it as an ISO
string and converts back with `new Date(...).getTime()`). -/
structure Session where
  browser : Nat
  page : Nat
  profile : Profile
  startTime : Nat
  status : String
  headless : Bool
  deriving Repr, DecidableEq

/-- The mutable fields of a `BrowserService` instance. -/
structure ServiceState where
  activeSessions : List (String × Session)
  startingProfiles : List String
  stoppingProfiles : List String
  deriving Repr, DecidableEq

def ServiceState.initial : ServiceState :=
  { activeSessions := [], startingProfiles := [], stoppingProfiles := [] }

/-- An error thrown by the external automation engine (puppeteer); only its
message is inspected by the service. -/
structure EngineError where
  message : String
  deriving Repr, DecidableEq

/-- Errors thrown by `startBrowser`.  `alreadyStarting` is the plain
`Error` of the `startingProfiles` guard; `sessionActive` carries
`code = 'SESSION_ACTIVE'` and the profile id context; `browserNotFound` and
`launchFailed` carry the original launch error (`error.originalError`);
`navigation` is the engine's `page.goto` error rethrown unchanged. -/
inductive StartError where
  | alreadyStarting (profileId : String)
  | sessionActive (profileId : String)
  | profileNotFound (profileId : String)
  | browserNotFound (originalError : EngineError)
  | launchFailed (message : String) (originalError : EngineError)
  | navigation (e : EngineError)
  deriving Repr, DecidableEq

/-- Errors thrown by `navigateToUrl` / `executeScript`: either the local
"no active browser session" error, or the engine error rethrown unchanged. -/
inductive OpError where
  | noActiveSession (profileId : String)
  | engine (e : EngineError)
  deriving Repr, DecidableEq

/-- Observable calls into the automation engine and the error-log entries the
claims talk about, recorded as a trace. -/
inductive Ev where
  | launch (headless : Bool)
  | goto (page : Nat) (url : String) (waitUntil : String) (timeout : Nat)
  | close (browser : Nat)
  | registerDisconnect (profileId : String)
  | evalScript (page : Nat) (script : String)
  | pageUrl (page : Nat)
  | pageTitle (page : Nat)
  | logError (message : String)
  deriving Repr, DecidableEq

/-! ## `startBrowser` -/

/-- Outcomes of the `await`ed external calls made by one `startBrowser`
invocation. -/
structure StartEnv where
  profileLookup : Option Profile
  launch : Except EngineError (Nat × Nat)
  navResult : Except EngineError Unit
  closeResult : Except EngineError Unit
  now : Nat
  deriving Repr

structure ProxySummary where
  host : String
  port : Nat
  protocol : String
  deriving Repr, DecidableEq

structure BrowserInfo where
  userAgent : String
  viewport : String
  timezone : String
  proxy : Option ProxySummary
  deriving Repr, DecidableEq

/-- The session summary returned by a successful `startBrowser`. -/
structure StartResult where
  profileId : String
  profileName : String
  status : String
  startTime : Nat
  headless : Bool
  browserInfo : BrowserInfo
  deriving Repr, DecidableEq

/-- The default test page used when no `autoNavigateUrl` is given. -/
def defaultTestUrl : String := "https://httpbin.org/headers"

/-- The executable-not-found classification of a launch error message
(`launchError.message.includes('executable') || ... 'ENOENT' || ... 'spawn'
|| ... 'not found'`). -/
def execNotFoundMessage (msg : String) : Bool :=
  jsIncludes msg "executable" || jsIncludes msg "ENOENT" ||
    jsIncludes msg "spawn" || jsIncludes msg "not found"

/-- `options.headless ?? profile.defaultHeadless ?? false`. -/
def resolveHeadless (optionsHeadless defaultHeadless : Option Bool) : Bool :=
  match optionsHeadless with
  | some h => h
  | none =>
      match defaultHeadless with
      | some h => h
      | none => false

/-- The `catch` block of `startBrowser`: if a registry entry exists for the
profile, close its browser handle (logging, but swallowing, a close error)
and delete the entry.  Returns the mutated state and the engine/log trace of
the cleanup. -/
def startCleanup (svc : ServiceState) (profileId : String)
    (closeResult : Except EngineError Unit) : ServiceState × List Ev :=
  match mapGet svc.activeSessions profileId with
  | some session =>
      -- `session.browser` is always an object here, hence truthy.
      let closeEvs :=
        match closeResult with
        | .ok _ => [Ev.close session.browser]
        | .error e =>
            [Ev.close session.browser,
             Ev.logError ("Error closing browser after failed start: " ++ e.message)]
      ({ svc with activeSessions := mapDelete svc.activeSessions profileId },
       closeEvs)
  | none => (svc, [])

/-- The `finally` block of `startBrowser`. -/
def startFinally (svc : ServiceState) (profileId : String) : ServiceState :=
  { svc with startingProfiles := svc.startingProfiles.erase profileId }

/-- `BrowserService.startBrowser(profileId, autoNavigateUrl, options)`,
with every `await`ed outcome supplied by `env`.  Returns the thrown error or
returned summary, the final service state, and the trace of engine calls. -/
def startBrowser (svc : ServiceState) (profileId : String)
    (autoNavigateUrl : Option String) (optionsHeadless : Option Bool)
    (env : StartEnv) :
    Except StartError StartResult × ServiceState × List Ev :=
  if profileId ∈ svc.startingProfiles then
    (.error (.alreadyStarting profileId), svc, [])
  else if mapHas svc.activeSessions profileId then
    (.error (.sessionActive profileId), svc, [])
  else
    let svc1 : ServiceState :=
      { svc with startingProfiles := profileId :: svc.startingProfiles }
    match env.profileLookup with
    | none =>
        -- throw PROFILE_NOT_FOUND; caught by the catch block, then finally
        let (svc2, evs) := startCleanup svc1 profileId env.closeResult
        (.error (.profileNotFound profileId), startFinally svc2 profileId, evs)
    | some profile =>
        let headless := resolveHeadless optionsHeadless profile.defaultHeadless
        match env.launch with
        | .error launchError =>
            let err : StartError :=
              if execNotFoundMessage launchError.message then
                .browserNotFound launchError
              else
                .launchFailed ("Failed to launch browser: " ++ launchError.message)
                  launchError
            let (svc2, evs) := startCleanup svc1 profileId env.closeResult
            (.error err, startFinally svc2 profileId, Ev.launch headless :: evs)
        | .ok (browser, page) =>
            let session : Session :=
              { browser := browser, page := page, profile := profile,
                startTime := env.now, status := "running", headless := headless }
            let svc2 : ServiceState :=
              { svc1 with
                activeSessions := mapSet svc1.activeSessions profileId session }
            let targetUrl := autoNavigateUrl.getD defaultTestUrl
            match env.navResult with
            | .error navError =>
                let (svc3, evs) := startCleanup svc2 profileId env.closeResult
                (.error (.navigation navError), startFinally svc3 profileId,
                 Ev.launch headless :: Ev.registerDisconnect profileId ::
                   Ev.goto page targetUrl "networkidle2" 30000 :: evs)
            | .ok _ =>
                (.ok { profileId := profileId, profileName := profile.name,
                       status := "running", startTime := session.startTime,
                       headless := headless,
                       browserInfo :=
                         { userAgent := profile.userAgent,
                           viewport := profile.viewport,
                           timezone := profile.timezone,
                           proxy := profile.proxy.map fun pr =>
                             { host := pr.host, port := pr.port,
                               protocol := pr.protocol } } },
                 startFinally svc2 profileId,
                 [Ev.launch headless, Ev.registerDisconnect profileId,
                  Ev.goto page targetUrl "networkidle2" 30000])

/-- The `'disconnected'` callback registered on the browser handle during
`startBrowser`: it closes over `profileId` only and deletes that key from the
registry. -/
def disconnectHandler (profileId : String) (svc : ServiceState) : ServiceState :=
  { svc with activeSessions := mapDelete svc.activeSessions profileId }

/-! ## `stopBrowser` -/

/-- `BrowserService.stopBrowser(profileId)`; `closeResult` is the outcome of
the `await session.browser.close()`.  Returns the boolean result (the JS
method only ever returns, it never throws), the final state and the trace. -/
def stopBrowser (svc : ServiceState) (profileId : String)
    (closeResult : Except EngineError Unit) :
    Bool × ServiceState × List Ev :=
  if profileId ∈ svc.stoppingProfiles then
    (true, svc, [])
  else
    match mapGet svc.activeSessions profileId with
    | none => (false, svc, [])
    | some session =>
        let svc1 : ServiceState :=
          { svc with stoppingProfiles := profileId :: svc.stoppingProfiles }
        -- `session.browser` is always an object, hence truthy: close happens.
        let afterClose : ServiceState :=
          { svc1 with activeSessions := mapDelete svc1.activeSessions profileId }
        let final : ServiceState :=
          { afterClose with
            stoppingProfiles := afterClose.stoppingProfiles.erase profileId }
        match closeResult with
        | .ok _ => (true, final, [Ev.close session.browser])
        | .error e =>
            (true, final,
             [Ev.close session.browser,
              Ev.logError ("Error stopping browser for profile " ++ profileId ++
                ": " ++ e.message)])

/-! ## `getBrowserStatus`, `navigateToUrl`, `executeScript` -/

structure SessionStatus where
  profileId : String
  profileName : String
  status : String
  startTime : Nat
  headless : Bool
  uptime : Int
  deriving Repr, DecidableEq

/-- `BrowserService.getBrowserStatus(profileId)`; `now` is `Date.now()` in
milliseconds.  Pure read. -/
def getBrowserStatus (svc : ServiceState) (profileId : String) (now : Nat) :
    Option SessionStatus :=
  match mapGet svc.activeSessions profileId with
  | none => none
  | some session =>
      some { profileId := profileId, profileName := session.profile.name,
             status := session.status, startTime := session.startTime,
             headless := session.headless,
             uptime := ((now : Int) - (session.startTime : Int)) / 1000 }

/-- Outcomes of the engine calls made by one `navigateToUrl` invocation. -/
structure NavEnv where
  gotoResult : Except EngineError Unit
  currentUrl : String
  currentTitle : String
  deriving Repr

structure NavResult where
  success : Bool
  url : String
  title : String
  deriving Repr, DecidableEq

/-- `BrowserService.navigateToUrl(profileId, url)`. -/
def navigateToUrl (svc : ServiceState) (profileId url : String) (env : NavEnv) :
    Except OpError NavResult × ServiceState × List Ev :=
  match mapGet svc.activeSessions profileId with
  | none => (.error (.noActiveSession profileId), svc, [])
  | some session =>
      match env.gotoResult with
      | .error e =>
          (.error (.engine e), svc,
           [Ev.goto session.page url "networkidle2" 30000])
      | .ok _ =>
          (.ok { success := true, url := env.currentUrl,
                 title := env.currentTitle },
           svc,
           [Ev.goto session.page url "networkidle2" 30000,
            Ev.pageUrl session.page, Ev.pageTitle session.page])

/-- `BrowserService.executeScript(profileId, script)`; `evalResult` is the
outcome of `page.evaluate(script)`, returned verbatim on success. -/
def executeScript {α : Type} (svc : ServiceState) (profileId script : String)
    (evalResult : Except EngineError α) :
    Except OpError α × ServiceState × List Ev :=
  match mapGet svc.activeSessions profileId with
  | none => (.error (.noActiveSession profileId), svc, [])
  | some session =>
      match evalResult with
      | .error e => (.error (.engine e), svc, [Ev.evalScript session.page script])
      | .ok v => (.ok v, svc, [Ev.evalScript session.page script])

/-! ## Small-step concurrency model

JS runs the service on a single-threaded event loop: an `async` method runs
synchronously between `await` points, and other calls may interleave only at
those points.  `startBrowser` suspends at the profile lookup, the engine
launch, `page.goto`, and (in its catch block) `browser.close()`;
`stopBrowser` suspends at `browser.close()`.  A `TaskState` names the
suspension point an in-flight call is parked at, together with the local
variables still live there. -/

inductive TaskState where
  | awaitProfile (optionsHeadless : Option Bool) (autoNavigateUrl : Option String)
  | awaitLaunch (profile : Profile) (headless : Bool)
      (autoNavigateUrl : Option String)
  | awaitGoto (browser : Nat)
  | awaitCleanupClose (browser : Nat)
  | stopAwaitClose (browser : Nat)
  deriving Repr, DecidableEq

/-- An in-flight call: the profile id it was invoked with and its suspension
point. -/
abbrev Task := String × TaskState

/-- Global state of the interleaved execution: the service fields plus the
set of parked calls. -/
structure CState where
  svc : ServiceState
  tasks : List Task
  deriving Repr, DecidableEq

def CState.initial : CState := { svc := .initial, tasks := [] }

def TaskState.isStart : TaskState → Bool
  | .stopAwaitClose _ => false
  | _ => true

/-- Profile ids of the in-flight `startBrowser` calls. -/
def inflightStarts (ts : List Task) : List String :=
  ts.filterMap fun t => if t.2.isStart then some t.1 else none

/-- Profile ids of the in-flight `stopBrowser` calls. -/
def inflightStops (ts : List Task) : List String :=
  ts.filterMap fun t => if t.2.isStart then none else some t.1

/-- One transition of the event loop: a new call runs its synchronous prefix
up to its first suspension point (or completes outright), or a parked call is
resumed with some outcome of its pending `await` and runs to its next
suspension point, or a browser `'disconnected'` event fires.  Constructors
follow the synchronous segments of `startBrowser` / `stopBrowser`. -/
inductive Step : CState → CState → Prop where
  /-- `startBrowser` invoked while the profile is in `startingProfiles`:
  throws `alreadyStarting` synchronously, no state change. -/
  | startAlreadyStarting (s : CState) (p : String) :
      p ∈ s.svc.startingProfiles → Step s s
  /-- `startBrowser` invoked while a session is registered: throws
  `sessionActive` synchronously, no state change. -/
  | startSessionActive (s : CState) (p : String) :
      p ∉ s.svc.startingProfiles → mapHas s.svc.activeSessions p = true →
      Step s s
  /-- `startBrowser` passes both guards: adds the profile to
  `startingProfiles` and suspends at the profile lookup. -/
  | startBegin (s : CState) (p : String) (oh : Option Bool) (u : Option String) :
      p ∉ s.svc.startingProfiles → mapGet s.svc.activeSessions p = none →
      Step s
        { svc := { s.svc with startingProfiles := p :: s.svc.startingProfiles },
          tasks := s.tasks ++ [(p, .awaitProfile oh u)] }
  /-- Profile lookup returns a profile: headless is resolved and the call
  suspends at the engine launch. -/
  | profileFound (svc : ServiceState) (l1 l2 : List Task) (p : String)
      (oh : Option Bool) (u : Option String) (profile : Profile) :
      Step ⟨svc, l1 ++ (p, .awaitProfile oh u) :: l2⟩
        ⟨svc, l1 ++
          (p, .awaitLaunch profile (resolveHeadless oh profile.defaultHeadless) u)
          :: l2⟩
  /-- Profile lookup returns null and no registry entry exists: the catch
  block skips cleanup and the finally block releases the guard. -/
  | profileMissingNoEntry (svc : ServiceState) (l1 l2 : List Task) (p : String)
      (oh : Option Bool) (u : Option String) :
      mapGet svc.activeSessions p = none →
      Step ⟨svc, l1 ++ (p, .awaitProfile oh u) :: l2⟩
        ⟨{ svc with startingProfiles := svc.startingProfiles.erase p }, l1 ++ l2⟩
  /-- Profile lookup returns null with a registry entry present: the catch
  block suspends at the cleanup `browser.close()`. -/
  | profileMissingEntry (svc : ServiceState) (l1 l2 : List Task) (p : String)
      (oh : Option Bool) (u : Option String) (sess : Session) :
      mapGet svc.activeSessions p = some sess →
      Step ⟨svc, l1 ++ (p, .awaitProfile oh u) :: l2⟩
        ⟨svc, l1 ++ (p, .awaitCleanupClose sess.browser) :: l2⟩
  /-- Engine launch throws and no registry entry exists: classification and
  rethrow are synchronous; the finally block releases the guard. -/
  | launchErrNoEntry (svc : ServiceState) (l1 l2 : List Task) (p : String)
      (profile : Profile) (h : Bool) (u : Option String) :
      mapGet svc.activeSessions p = none →
      Step ⟨svc, l1 ++ (p, .awaitLaunch profile h u) :: l2⟩
        ⟨{ svc with startingProfiles := svc.startingProfiles.erase p }, l1 ++ l2⟩
  /-- Engine launch throws with a registry entry present: the catch block
  suspends at the cleanup `browser.close()`. -/
  | launchErrEntry (svc : ServiceState) (l1 l2 : List Task) (p : String)
      (profile : Profile) (h : Bool) (u : Option String) (sess : Session) :
      mapGet svc.activeSessions p = some sess →
      Step ⟨svc, l1 ++ (p, .awaitLaunch profile h u) :: l2⟩
        ⟨svc, l1 ++ (p, .awaitCleanupClose sess.browser) :: l2⟩
  /-- Engine launch succeeds: the session record is inserted into the
  registry, the disconnect handler registered, and the call suspends at
  `page.goto`. -/
  | launchOk (svc : ServiceState) (l1 l2 : List Task) (p : String)
      (profile : Profile) (h : Bool) (u : Option String) (b pg now : Nat) :
      Step ⟨svc, l1 ++ (p, .awaitLaunch profile h u) :: l2⟩
        ⟨{ svc with
            activeSessions := mapSet svc.activeSessions p
              { browser := b, page := pg, profile := profile, startTime := now,
                status := "running", headless := h } },
          l1 ++ (p, .awaitGoto b) :: l2⟩
  /-- Navigation succeeds: the summary is returned and the finally block
  releases the guard. -/
  | gotoOk (svc : ServiceState) (l1 l2 : List Task) (p : String) (b : Nat) :
      Step ⟨svc, l1 ++ (p, .awaitGoto b) :: l2⟩
        ⟨{ svc with startingProfiles := svc.startingProfiles.erase p }, l1 ++ l2⟩
  /-- Navigation throws and the registry entry is gone (a concurrent stop or
  disconnect removed it): the catch block skips cleanup; guard released. -/
  | gotoErrNoEntry (svc : ServiceState) (l1 l2 : List Task) (p : String) (b : Nat) :
      mapGet svc.activeSessions p = none →
      Step ⟨svc, l1 ++ (p, .awaitGoto b) :: l2⟩
        ⟨{ svc with startingProfiles := svc.startingProfiles.erase p }, l1 ++ l2⟩
  /-- Navigation throws with the registry entry still present: the catch
  block suspends at the cleanup `browser.close()`. -/
  | gotoErrEntry (svc : ServiceState) (l1 l2 : List Task) (p : String)
      (b : Nat) (sess : Session) :
      mapGet svc.activeSessions p = some sess →
      Step ⟨svc, l1 ++ (p, .awaitGoto b) :: l2⟩
        ⟨svc, l1 ++ (p, .awaitCleanupClose sess.browser) :: l2⟩
  /-- The cleanup `browser.close()` settles (either way): the registry entry
  is deleted, the error rethrown, and the finally block releases the guard. -/
  | cleanupCloseDone (svc : ServiceState) (l1 l2 : List Task) (p : String) (b : Nat) :
      Step ⟨svc, l1 ++ (p, .awaitCleanupClose b) :: l2⟩
        ⟨{ svc with
            activeSessions := mapDelete svc.activeSessions p,
            startingProfiles := svc.startingProfiles.erase p }, l1 ++ l2⟩
  /-- `stopBrowser` invoked while the profile is in `stoppingProfiles`:
  returns `true` synchronously, no state change. -/
  | stopAlreadyStopping (s : CState) (p : String) :
      p ∈ s.svc.stoppingProfiles → Step s s
  /-- `stopBrowser` invoked with no registered session: returns `false`
  synchronously, no state change. -/
  | stopNoSession (s : CState) (p : String) :
      p ∉ s.svc.stoppingProfiles → mapGet s.svc.activeSessions p = none →
      Step s s
  /-- `stopBrowser` finds a session: adds the profile to `stoppingProfiles`
  and suspends at `browser.close()`. -/
  | stopBegin (s : CState) (p : String) (sess : Session) :
      p ∉ s.svc.stoppingProfiles → mapGet s.svc.activeSessions p = some sess →
      Step s
        { svc := { s.svc with stoppingProfiles := p :: s.svc.stoppingProfiles },
          tasks := s.tasks ++ [(p, .stopAwaitClose sess.browser)] }
  /-- `browser.close()` settles (either way — a close error is logged and
  swallowed): the registry entry is deleted, `true` returned, and the finally
  block releases the guard. -/
  | stopCloseDone (svc : ServiceState) (l1 l2 : List Task) (p : String) (b : Nat) :
      Step ⟨svc, l1 ++ (p, .stopAwaitClose b) :: l2⟩
        ⟨{ svc with
            activeSessions := mapDelete svc.activeSessions p,
            stoppingProfiles := svc.stoppingProfiles.erase p }, l1 ++ l2⟩
  /-- A browser `'disconnected'` event fires: the handler registered at
  launch deletes its profile's key from the registry (and nothing else). -/
  | disconnect (s : CState) (p : String) :
      Step s ⟨{ s.svc with activeSessions := mapDelete s.svc.activeSessions p },
        s.tasks⟩

/-- States reachable from the empty service by any interleaving of calls. -/
def Reachable (s : CState) : Prop :=
  Relation.ReflTransGen Step CState.initial s

/-! ## The global invariant -/

/-- The invariant of the interleaved execution: registry keys are free of
duplicates, the guard sets are free of duplicates, and each guard set holds
exactly the profile ids of the in-flight calls of its kind. -/
def Inv (s : CState) : Prop :=
  (keys s.svc.activeSessions).Nodup ∧
  s.svc.startingProfiles.Nodup ∧
  s.svc.stoppingProfiles.Nodup ∧
  s.svc.startingProfiles.Perm (inflightStarts s.tasks) ∧
  s.svc.stoppingProfiles.Perm (inflightStops s.tasks)

/-- A sample profile used to instantiate the theorems below on concrete
inputs. -/
def sampleProfile : Profile :=
  { name := "Sample", userAgent := "ua", viewport := "1280x720",
    timezone := "UTC", proxy := none, defaultHeadless := some true }

/-- A `startBrowser` environment in which every external call succeeds. -/
def sampleOkStartEnv : StartEnv :=
  { profileLookup := some sampleProfile, launch := .ok (1, 2),
    navResult := .ok (), closeResult := .ok (), now := 1000 }

/-- State after a first successful start of profile `"abc"` (handle 1). -/
def staleStart1 : ServiceState :=
  (startBrowser ServiceState.initial "abc" none none sampleOkStartEnv).2.1

/-- State after that session is stopped again. -/
def staleStop : ServiceState :=
  (stopBrowser staleStart1 "abc" (.ok ())).2.1

/-- State after a second successful start of `"abc"` (fresh handle 3): the
first session's disconnect handler is still registered on the old browser. -/
def staleStart2 : ServiceState :=
  (startBrowser staleStop "abc" none none
    { sampleOkStartEnv with launch := .ok (3, 4), now := 2000 }).2.1


/-! ## Map lemmas -/

theorem mapGet_eq_none_iff {α : Type} (m : List (String × α)) (k : String) :
    mapGet m k = none ↔ k ∉ keys m := by
  induction m with
  | nil => simp [mapGet, keys]
  | cons hd tl ih =>
      obtain ⟨k', v⟩ := hd
      simp only [mapGet, keys, List.map_cons, List.mem_cons]
      by_cases h : k' = k
      · subst h
        simp
      · simp only [if_neg h, ih, keys]
        constructor
        · intro hn hc
          rcases hc with hc | hc
          · exact h hc.symm
          · exact hn hc
        · intro hn hc
          exact hn (Or.inr hc)

theorem mapGet_mapSet_self {α : Type} (m : List (String × α)) (k : String) (v : α) :
    mapGet (mapSet m k v) k = some v := by
  induction m with
  | nil => simp [mapSet, mapGet]
  | cons hd tl ih =>
      obtain ⟨k', v'⟩ := hd
      by_cases h : k' = k
      · simp [mapSet, mapGet, h]
      · simp [mapSet, mapGet, h, ih]

theorem keys_mapSet {α : Type} (m : List (String × α)) (k : String) (v : α) :
    keys (mapSet m k v) = if k ∈ keys m then keys m else keys m ++ [k] := by
  induction m with
  | nil => simp [mapSet, keys]
  | cons hd tl ih =>
      obtain ⟨k', v'⟩ := hd
      by_cases h : k' = k
      · subst h
        simp [mapSet, keys]
      · have hne : ¬ k = k' := fun hc => h hc.symm
        have hcons : keys ((k', v') :: tl) = k' :: keys tl := rfl
        have hset : keys (mapSet ((k', v') :: tl) k v) = k' :: keys (mapSet tl k v) := by
          simp [mapSet, h, keys]
        rw [hset, ih, hcons]
        by_cases hmem : k ∈ keys tl
        · rw [if_pos hmem, if_pos (List.mem_cons_of_mem k' hmem)]
        · have hnm : k ∉ k' :: keys tl := by
            intro hc
            rcases List.mem_cons.mp hc with hc | hc
            · exact hne hc
            · exact hmem hc
          rw [if_neg hmem, if_neg hnm]
          simp

theorem keys_mapDelete {α : Type} (m : List (String × α)) (k : String) :
    keys (mapDelete m k) = (keys m).erase k := by
  induction m with
  | nil => simp [mapDelete, keys]
  | cons hd tl ih =>
      obtain ⟨k', v'⟩ := hd
      by_cases h : k' = k
      · subst h
        simp [mapDelete, keys, List.erase_cons]
      · have hdel : keys (mapDelete ((k', v') :: tl) k) = k' :: keys (mapDelete tl k) := by
          simp [mapDelete, h, keys]
        have hcons : keys ((k', v') :: tl) = k' :: keys tl := rfl
        rw [hdel, ih, hcons, List.erase_cons]
        simp [h]

theorem nodup_keys_mapSet {α : Type} {m : List (String × α)} (k : String) (v : α)
    (h : (keys m).Nodup) : (keys (mapSet m k v)).Nodup := by
  rw [keys_mapSet]
  split
  · exact h
  · next hnot =>
      refine List.Nodup.append h (List.nodup_singleton k) ?_
      intro a ha hb
      rcases List.mem_singleton.mp hb with rfl
      exact hnot ha

theorem nodup_keys_mapDelete {α : Type} {m : List (String × α)} (k : String)
    (h : (keys m).Nodup) : (keys (mapDelete m k)).Nodup := by
  rw [keys_mapDelete]
  exact h.erase k

theorem mapGet_mapDelete_self {α : Type} {m : List (String × α)} (k : String)
    (h : (keys m).Nodup) : mapGet (mapDelete m k) k = none := by
  rw [mapGet_eq_none_iff, keys_mapDelete]
  intro hc
  exact ((h.mem_erase_iff).mp hc).1 rfl

theorem mapSet_eq_append_of_get_none {α : Type} {m : List (String × α)}
    {k : String} (v : α) (h : mapGet m k = none) :
    mapSet m k v = m ++ [(k, v)] := by
  induction m with
  | nil => simp [mapSet]
  | cons hd tl ih =>
      obtain ⟨k', v'⟩ := hd
      simp only [mapGet] at h
      by_cases hk : k' = k
      · simp [hk] at h
      · simp only [if_neg hk] at h
        simp [mapSet, hk, ih h]

theorem mapDelete_eq_of_get_none {α : Type} {m : List (String × α)}
    {k : String} (h : mapGet m k = none) : mapDelete m k = m := by
  induction m with
  | nil => simp [mapDelete]
  | cons hd tl ih =>
      obtain ⟨k', v'⟩ := hd
      simp only [mapGet] at h
      by_cases hk : k' = k
      · simp [hk] at h
      · simp only [if_neg hk] at h
        simp [mapDelete, hk, ih h]

theorem mapDelete_append_singleton_of_get_none {α : Type} {m : List (String × α)}
    {k : String} (v : α) (h : mapGet m k = none) :
    mapDelete (m ++ [(k, v)]) k = m := by
  induction m with
  | nil => simp [mapDelete]
  | cons hd tl ih =>
      obtain ⟨k', v'⟩ := hd
      simp only [mapGet] at h
      by_cases hk : k' = k
      · simp [hk] at h
      · simp only [if_neg hk] at h
        simp [mapDelete, hk, ih h]

/-- Deleting the key just inserted into a map that did not hold it restores
the original map. -/
theorem mapDelete_mapSet_of_get_none {α : Type} {m : List (String × α)}
    {k : String} {v : α} (h : mapGet m k = none) :
    mapDelete (mapSet m k v) k = m := by
  rw [mapSet_eq_append_of_get_none v h, mapDelete_append_singleton_of_get_none v h]

/-! ## In-flight-call bookkeeping lemmas -/

theorem inflightStarts_append (l1 l2 : List Task) :
    inflightStarts (l1 ++ l2) = inflightStarts l1 ++ inflightStarts l2 := by
  simp [inflightStarts]

theorem inflightStops_append (l1 l2 : List Task) :
    inflightStops (l1 ++ l2) = inflightStops l1 ++ inflightStops l2 := by
  simp [inflightStops]

theorem inflightStarts_cons_start (p : String) (t : TaskState) (ts : List Task)
    (h : t.isStart = true) :
    inflightStarts ((p, t) :: ts) = p :: inflightStarts ts := by
  simp [inflightStarts, List.filterMap_cons, h]

theorem inflightStarts_cons_stop (p : String) (t : TaskState) (ts : List Task)
    (h : t.isStart = false) :
    inflightStarts ((p, t) :: ts) = inflightStarts ts := by
  simp [inflightStarts, List.filterMap_cons, h]

theorem inflightStops_cons_start (p : String) (t : TaskState) (ts : List Task)
    (h : t.isStart = true) :
    inflightStops ((p, t) :: ts) = inflightStops ts := by
  simp [inflightStops, List.filterMap_cons, h]

theorem inflightStops_cons_stop (p : String) (t : TaskState) (ts : List Task)
    (h : t.isStart = false) :
    inflightStops ((p, t) :: ts) = p :: inflightStops ts := by
  simp [inflightStops, List.filterMap_cons, h]

theorem inflightStarts_nil : inflightStarts [] = [] := rfl

theorem inflightStops_nil : inflightStops [] = [] := rfl

theorem inflightStarts_middle (l1 l2 : List Task) (p : String) (t : TaskState)
    (h : t.isStart = true) :
    inflightStarts (l1 ++ (p, t) :: l2) =
      inflightStarts l1 ++ p :: inflightStarts l2 := by
  rw [inflightStarts_append, inflightStarts_cons_start p t l2 h]

theorem inflightStarts_middle_stopTask (l1 l2 : List Task) (p : String)
    (t : TaskState) (h : t.isStart = false) :
    inflightStarts (l1 ++ (p, t) :: l2) =
      inflightStarts l1 ++ inflightStarts l2 := by
  rw [inflightStarts_append, inflightStarts_cons_stop p t l2 h]

theorem inflightStops_middle (l1 l2 : List Task) (p : String) (t : TaskState)
    (h : t.isStart = false) :
    inflightStops (l1 ++ (p, t) :: l2) =
      inflightStops l1 ++ p :: inflightStops l2 := by
  rw [inflightStops_append, inflightStops_cons_stop p t l2 h]

theorem inflightStops_middle_startTask (l1 l2 : List Task) (p : String)
    (t : TaskState) (h : t.isStart = true) :
    inflightStops (l1 ++ (p, t) :: l2) =
      inflightStops l1 ++ inflightStops l2 := by
  rw [inflightStops_append, inflightStops_cons_start p t l2 h]

/-- Removing one occurrence of `p` from a list permutation-equal to
`A ++ p :: B` leaves a list permutation-equal to `A ++ B`. -/
theorem perm_erase_middle {g A B : List String} {p : String}
    (hg : g.Perm (A ++ p :: B)) : (g.erase p).Perm (A ++ B) := by
  have h2 : g.Perm (p :: (A ++ B)) := hg.trans List.perm_middle
  have h3 := h2.erase p
  rwa [List.erase_cons_head] at h3

/-- Adding `p` in front of a list permutation-equal to `A` gives a list
permutation-equal to `A ++ [p]`. -/
theorem perm_cons_append {g A : List String} {p : String} (hg : g.Perm A) :
    (p :: g).Perm (A ++ [p]) :=
  (hg.cons p).trans (List.perm_append_singleton p A).symm

/-- Every transition of the event loop preserves the invariant. -/
theorem step_preserves_inv {s1 s2 : CState} (h : Step s1 s2) (inv : Inv s1) :
    Inv s2 := by
  obtain ⟨hk, hsn, htn, hsp, htp⟩ := inv
  cases h with
  | startAlreadyStarting s p hp =>
      exact ⟨hk, hsn, htn, hsp, htp⟩
  | startSessionActive s p hp hq =>
      exact ⟨hk, hsn, htn, hsp, htp⟩
  | startBegin s p oh u hp hq =>
      refine ⟨hk, List.nodup_cons.mpr ⟨hp, hsn⟩, htn, ?_, ?_⟩
      · rw [inflightStarts_append,
          inflightStarts_cons_start p (.awaitProfile oh u) [] rfl]
        exact perm_cons_append hsp
      · rw [inflightStops_append,
          inflightStops_cons_start p (.awaitProfile oh u) [] rfl,
          inflightStops_nil, List.append_nil]
        exact htp
  | profileFound svc l1 l2 p oh u profile =>
      refine ⟨hk, hsn, htn, ?_, ?_⟩
      · rw [inflightStarts_middle l1 l2 p _ (by simp [TaskState.isStart])]
        rw [inflightStarts_middle l1 l2 p _ (by simp [TaskState.isStart])] at hsp
        exact hsp
      · rw [inflightStops_middle_startTask l1 l2 p _ (by simp [TaskState.isStart])]
        rw [inflightStops_middle_startTask l1 l2 p _ (by simp [TaskState.isStart])] at htp
        exact htp
  | profileMissingNoEntry svc l1 l2 p oh u hget =>
      refine ⟨hk, hsn.erase p, htn, ?_, ?_⟩
      · rw [inflightStarts_middle l1 l2 p _ (by simp [TaskState.isStart])] at hsp
        rw [inflightStarts_append]
        exact perm_erase_middle hsp
      · rw [inflightStops_middle_startTask l1 l2 p _ (by simp [TaskState.isStart])] at htp
        rw [inflightStops_append]
        exact htp
  | profileMissingEntry svc l1 l2 p oh u sess hget =>
      refine ⟨hk, hsn, htn, ?_, ?_⟩
      · rw [inflightStarts_middle l1 l2 p _ (by simp [TaskState.isStart])]
        rw [inflightStarts_middle l1 l2 p _ (by simp [TaskState.isStart])] at hsp
        exact hsp
      · rw [inflightStops_middle_startTask l1 l2 p _ (by simp [TaskState.isStart])]
        rw [inflightStops_middle_startTask l1 l2 p _ (by simp [TaskState.isStart])] at htp
        exact htp
  | launchErrNoEntry svc l1 l2 p profile hl u hget =>
      refine ⟨hk, hsn.erase p, htn, ?_, ?_⟩
      · rw [inflightStarts_middle l1 l2 p _ (by simp [TaskState.isStart])] at hsp
        rw [inflightStarts_append]
        exact perm_erase_middle hsp
      · rw [inflightStops_middle_startTask l1 l2 p _ (by simp [TaskState.isStart])] at htp
        rw [inflightStops_append]
        exact htp
  | launchErrEntry svc l1 l2 p profile hl u sess hget =>
      refine ⟨hk, hsn, htn, ?_, ?_⟩
      · rw [inflightStarts_middle l1 l2 p _ (by simp [TaskState.isStart])]
        rw [inflightStarts_middle l1 l2 p _ (by simp [TaskState.isStart])] at hsp
        exact hsp
      · rw [inflightStops_middle_startTask l1 l2 p _ (by simp [TaskState.isStart])]
        rw [inflightStops_middle_startTask l1 l2 p _ (by simp [TaskState.isStart])] at htp
        exact htp
  | launchOk svc l1 l2 p profile hl u b pg now =>
      refine ⟨nodup_keys_mapSet p _ hk, hsn, htn, ?_, ?_⟩
      · rw [inflightStarts_middle l1 l2 p _ (by simp [TaskState.isStart])]
        rw [inflightStarts_middle l1 l2 p _ (by simp [TaskState.isStart])] at hsp
        exact hsp
      · rw [inflightStops_middle_startTask l1 l2 p _ (by simp [TaskState.isStart])]
        rw [inflightStops_middle_startTask l1 l2 p _ (by simp [TaskState.isStart])] at htp
        exact htp
  | gotoOk svc l1 l2 p b =>
      refine ⟨hk, hsn.erase p, htn, ?_, ?_⟩
      · rw [inflightStarts_middle l1 l2 p _ (by simp [TaskState.isStart])] at hsp
        rw [inflightStarts_append]
        exact perm_erase_middle hsp
      · rw [inflightStops_middle_startTask l1 l2 p _ (by simp [TaskState.isStart])] at htp
        rw [inflightStops_append]
        exact htp
  | gotoErrNoEntry svc l1 l2 p b hget =>
      refine ⟨hk, hsn.erase p, htn, ?_, ?_⟩
      · rw [inflightStarts_middle l1 l2 p _ (by simp [TaskState.isStart])] at hsp
        rw [inflightStarts_append]
        exact perm_erase_middle hsp
      · rw [inflightStops_middle_startTask l1 l2 p _ (by simp [TaskState.isStart])] at htp
        rw [inflightStops_append]
        exact htp
  | gotoErrEntry svc l1 l2 p b sess hget =>
      refine ⟨hk, hsn, htn, ?_, ?_⟩
      · rw [inflightStarts_middle l1 l2 p _ (by simp [TaskState.isStart])]
        rw [inflightStarts_middle l1 l2 p _ (by simp [TaskState.isStart])] at hsp
        exact hsp
      · rw [inflightStops_middle_startTask l1 l2 p _ (by simp [TaskState.isStart])]
        rw [inflightStops_middle_startTask l1 l2 p _ (by simp [TaskState.isStart])] at htp
        exact htp
  | cleanupCloseDone svc l1 l2 p b =>
      refine ⟨nodup_keys_mapDelete p hk, hsn.erase p, htn, ?_, ?_⟩
      · rw [inflightStarts_middle l1 l2 p _ (by simp [TaskState.isStart])] at hsp
        rw [inflightStarts_append]
        exact perm_erase_middle hsp
      · rw [inflightStops_middle_startTask l1 l2 p _ (by simp [TaskState.isStart])] at htp
        rw [inflightStops_append]
        exact htp
  | stopAlreadyStopping s p hp =>
      exact ⟨hk, hsn, htn, hsp, htp⟩
  | stopNoSession s p hp hq =>
      exact ⟨hk, hsn, htn, hsp, htp⟩
  | stopBegin s p sess hp hq =>
      refine ⟨hk, hsn, List.nodup_cons.mpr ⟨hp, htn⟩, ?_, ?_⟩
      · rw [inflightStarts_append,
          inflightStarts_cons_stop p (.stopAwaitClose sess.browser) [] rfl,
          inflightStarts_nil, List.append_nil]
        exact hsp
      · rw [inflightStops_append,
          inflightStops_cons_stop p (.stopAwaitClose sess.browser) [] rfl]
        exact perm_cons_append htp
  | stopCloseDone svc l1 l2 p b =>
      refine ⟨nodup_keys_mapDelete p hk, hsn, htn.erase p, ?_, ?_⟩
      · rw [inflightStarts_middle_stopTask l1 l2 p _ (by simp [TaskState.isStart])] at hsp
        rw [inflightStarts_append]
        exact hsp
      · rw [inflightStops_middle l1 l2 p _ (by simp [TaskState.isStart])] at htp
        rw [inflightStops_append]
        exact perm_erase_middle htp
  | disconnect s p =>
      exact ⟨nodup_keys_mapDelete p hk, hsn, htn, hsp, htp⟩

/-- The invariant holds in the initial state. -/
theorem inv_initial : Inv CState.initial := by
  refine ⟨?_, ?_, ?_, ?_, ?_⟩ <;>
    simp [CState.initial, ServiceState.initial, keys, inflightStarts,
      inflightStops]

/-- The invariant holds in every reachable state. -/
theorem reachable_inv {s : CState} (h : Reachable s) : Inv s := by
  induction h with
  | refl => exact inv_initial
  | tail _ hstep ih => exact step_preserves_inv hstep ih

/-! ## Claim theorems -/

/-- Claim C5: `stopBrowser`'s idempotent paths: when the profile is already in
`stoppingProfiles` the call returns `true` immediately without touching the
registry or invoking close again (empty trace, unchanged state); when the
profile has no registry entry the call returns `false` without side effects;
the method only ever returns a boolean, it never throws. -/
theorem stop_idempotent_paths (svc : ServiceState) (p : String)
    (closeRes : Except EngineError Unit) :
    (p ∈ svc.stoppingProfiles → stopBrowser svc p closeRes = (true, svc, [])) ∧
    (p ∉ svc.stoppingProfiles → mapGet svc.activeSessions p = none →
      stopBrowser svc p closeRes = (false, svc, [])) := by
  constructor
  · intro h
    simp [stopBrowser, h]
  · intro h hget
    simp [stopBrowser, h, hget]

/-- Witness for C5 at concrete inputs. -/
theorem stop_idempotent_paths_witness :
    stopBrowser ⟨[], [], ["a"]⟩ "a" (.ok ()) = (true, ⟨[], [], ["a"]⟩, []) ∧
    stopBrowser ⟨[], [], []⟩ "b" (.ok ()) = (false, ⟨[], [], []⟩, []) :=
  ⟨(stop_idempotent_paths ⟨[], [], ["a"]⟩ "a" (.ok ())).1 (by decide),
   (stop_idempotent_paths ⟨[], [], []⟩ "b" (.ok ())).2 (by decide) rfl⟩

/-- Claim C8: for a profile with no registry entry, `getBrowserStatus`
returns `null`, while `navigateToUrl` and `executeScript` throw the
no-active-session error; none of the three mutates the registry or the guard
sets (the returned state is the input state, and the trace is empty). -/
theorem no_session_ops_uniform {α : Type} (svc : ServiceState)
    (p url script : String) (now : Nat) (navEnv : NavEnv)
    (evalRes : Except EngineError α)
    (hget : mapGet svc.activeSessions p = none) :
    getBrowserStatus svc p now = none ∧
    navigateToUrl svc p url navEnv = (.error (.noActiveSession p), svc, []) ∧
    executeScript svc p script evalRes = (.error (.noActiveSession p), svc, []) := by
  refine ⟨?_, ?_, ?_⟩ <;>
    simp [getBrowserStatus, navigateToUrl, executeScript, hget]

/-- Witness for C8 at concrete inputs. -/
theorem no_session_ops_uniform_witness :
    getBrowserStatus ServiceState.initial "x" 5 = none ∧
    navigateToUrl ServiceState.initial "x" "https://a.example"
        ⟨.ok (), "https://a.example", "A"⟩ =
      (.error (.noActiveSession "x"), ServiceState.initial, []) ∧
    executeScript ServiceState.initial "x" "1+1" (.ok (7 : Nat)) =
      (.error (.noActiveSession "x"), ServiceState.initial, []) :=
  no_session_ops_uniform ServiceState.initial "x" "https://a.example" "1+1" 5
    ⟨.ok (), "https://a.example", "A"⟩ (.ok (7 : Nat)) rfl

/-- Claim C9: for a profile with an active session, `navigateToUrl p u`
invokes `page.goto` with exactly `u`, a network-idle-2 wait policy and a
30-second timeout; on success it returns `success = true`, the
post-navigation URL reported by `page.url()` and the title reported by
`page.title()`; it never mutates the service state; an engine navigation
failure propagates unchanged to the caller. -/
theorem navigation_echoes_target (svc : ServiceState) (p url : String)
    (env : NavEnv) (sess : Session)
    (hget : mapGet svc.activeSessions p = some sess) :
    Ev.goto sess.page url "networkidle2" 30000 ∈ (navigateToUrl svc p url env).2.2 ∧
    (navigateToUrl svc p url env).2.1 = svc ∧
    (env.gotoResult = .ok () →
      (navigateToUrl svc p url env).1 =
        .ok { success := true, url := env.currentUrl, title := env.currentTitle }) ∧
    (∀ e, env.gotoResult = .error e →
      (navigateToUrl svc p url env).1 = .error (.engine e)) := by
  obtain ⟨gr, cu, ct⟩ := env
  cases gr with
  | ok v => simp [navigateToUrl, hget]
  | error e => simp [navigateToUrl, hget]

/-- Witness for C9: a one-session service navigating successfully. -/
theorem navigation_echoes_target_witness :
    Ev.goto 2 "https://b.example" "networkidle2" 30000 ∈
      (navigateToUrl
        ⟨[("abc", ⟨1, 2, sampleProfile, 1000, "running", true⟩)], [], []⟩
        "abc" "https://b.example" ⟨.ok (), "https://b.example/", "B"⟩).2.2 ∧
    (navigateToUrl
        ⟨[("abc", ⟨1, 2, sampleProfile, 1000, "running", true⟩)], [], []⟩
        "abc" "https://b.example" ⟨.ok (), "https://b.example/", "B"⟩).2.1 =
      ⟨[("abc", ⟨1, 2, sampleProfile, 1000, "running", true⟩)], [], []⟩ ∧
    ((⟨.ok (), "https://b.example/", "B"⟩ : NavEnv).gotoResult = .ok () →
      (navigateToUrl
        ⟨[("abc", ⟨1, 2, sampleProfile, 1000, "running", true⟩)], [], []⟩
        "abc" "https://b.example" ⟨.ok (), "https://b.example/", "B"⟩).1 =
      .ok { success := true, url := "https://b.example/", title := "B" }) ∧
    (∀ e, (⟨.ok (), "https://b.example/", "B"⟩ : NavEnv).gotoResult = .error e →
      (navigateToUrl
        ⟨[("abc", ⟨1, 2, sampleProfile, 1000, "running", true⟩)], [], []⟩
        "abc" "https://b.example" ⟨.ok (), "https://b.example/", "B"⟩).1 =
      .error (.engine e)) :=
  navigation_echoes_target
    ⟨[("abc", ⟨1, 2, sampleProfile, 1000, "running", true⟩)], [], []⟩
    "abc" "https://b.example" ⟨.ok (), "https://b.example/", "B"⟩
    ⟨1, 2, sampleProfile, 1000, "running", true⟩ rfl

/-- Claim C4: stopping an active session (no stop already in flight) returns
`true`, leaves no registry entry for the profile, invokes the handle's close
exactly once, and releases the guard; when close throws, the error is logged
and the entry is still removed with `true` still returned. -/
theorem stop_removes_and_closes (svc : ServiceState) (p : String)
    (sess : Session) (closeRes : Except EngineError Unit)
    (hnodup : (keys svc.activeSessions).Nodup)
    (hns : p ∉ svc.stoppingProfiles)
    (hget : mapGet svc.activeSessions p = some sess) :
    (stopBrowser svc p closeRes).1 = true ∧
    mapGet (stopBrowser svc p closeRes).2.1.activeSessions p = none ∧
    (stopBrowser svc p closeRes).2.2.count (Ev.close sess.browser) = 1 ∧
    p ∉ (stopBrowser svc p closeRes).2.1.stoppingProfiles ∧
    (∀ e, closeRes = .error e →
      ∃ m, Ev.logError m ∈ (stopBrowser svc p closeRes).2.2) := by
  have hdel : mapGet (mapDelete svc.activeSessions p) p = none :=
    mapGet_mapDelete_self p hnodup
  cases closeRes with
  | ok v =>
      simp [stopBrowser, hns, hget, hdel, List.erase_cons_head]
  | error e =>
      simp [stopBrowser, hns, hget, hdel, List.erase_cons_head]

/-- Witness for C4: stopping the one active session of a one-session
service, both with a clean close and with a throwing close. -/
theorem stop_removes_and_closes_witness :
    (stopBrowser ⟨[("abc", ⟨1, 2, sampleProfile, 1000, "running", true⟩)], [], []⟩
        "abc" (.error ⟨"boom"⟩)).1 = true ∧
    mapGet (stopBrowser ⟨[("abc", ⟨1, 2, sampleProfile, 1000, "running", true⟩)], [], []⟩
        "abc" (.error ⟨"boom"⟩)).2.1.activeSessions "abc" = none ∧
    (stopBrowser ⟨[("abc", ⟨1, 2, sampleProfile, 1000, "running", true⟩)], [], []⟩
        "abc" (.error ⟨"boom"⟩)).2.2.count (Ev.close 1) = 1 ∧
    "abc" ∉ (stopBrowser ⟨[("abc", ⟨1, 2, sampleProfile, 1000, "running", true⟩)], [], []⟩
        "abc" (.error ⟨"boom"⟩)).2.1.stoppingProfiles ∧
    (∀ e, (.error ⟨"boom"⟩ : Except EngineError Unit) = .error e →
      ∃ m, Ev.logError m ∈
        (stopBrowser ⟨[("abc", ⟨1, 2, sampleProfile, 1000, "running", true⟩)], [], []⟩
          "abc" (.error ⟨"boom"⟩)).2.2) :=
  stop_removes_and_closes
    ⟨[("abc", ⟨1, 2, sampleProfile, 1000, "running", true⟩)], [], []⟩
    "abc" ⟨1, 2, sampleProfile, 1000, "running", true⟩ (.error ⟨"boom"⟩)
    (by decide) (by decide) rfl

/-- Helper: full evaluation of `startBrowser` on the all-successful path. -/
theorem startBrowser_success_eval (svc : ServiceState) (p : String)
    (u : Option String) (oh : Option Bool) (env : StartEnv) (prof : Profile)
    (b pg : Nat)
    (h1 : p ∉ svc.startingProfiles) (h2 : mapGet svc.activeSessions p = none)
    (hp : env.profileLookup = some prof) (hl : env.launch = .ok (b, pg))
    (hn : env.navResult = .ok ()) :
    startBrowser svc p u oh env =
      (.ok { profileId := p, profileName := prof.name, status := "running",
             startTime := env.now,
             headless := resolveHeadless oh prof.defaultHeadless,
             browserInfo :=
               { userAgent := prof.userAgent, viewport := prof.viewport,
                 timezone := prof.timezone,
                 proxy := prof.proxy.map fun pr =>
                   { host := pr.host, port := pr.port, protocol := pr.protocol } } },
       { activeSessions := mapSet svc.activeSessions p
           { browser := b, page := pg, profile := prof, startTime := env.now,
             status := "running",
             headless := resolveHeadless oh prof.defaultHeadless },
         startingProfiles := svc.startingProfiles,
         stoppingProfiles := svc.stoppingProfiles },
       [Ev.launch (resolveHeadless oh prof.defaultHeadless),
        Ev.registerDisconnect p,
        Ev.goto pg (u.getD defaultTestUrl) "networkidle2" 30000]) := by
  have hhas : mapHas svc.activeSessions p = false := by simp [mapHas, h2]
  simp [startBrowser, h1, hhas, hp, hl, hn, startFinally, List.erase_cons_head]

/-- Claim C6: the session's headless flag is `options.headless` when given,
else the profile's `defaultHeadless` when given, else `false`; the resolved
value is stored in the session record, returned in the summary, and reported
by `getBrowserStatus`. -/
theorem headless_resolution (svc : ServiceState) (p : String)
    (u : Option String) (oh : Option Bool) (env : StartEnv) (prof : Profile)
    (b pg now2 : Nat)
    (h1 : p ∉ svc.startingProfiles) (h2 : mapGet svc.activeSessions p = none)
    (hp : env.profileLookup = some prof) (hl : env.launch = .ok (b, pg))
    (hn : env.navResult = .ok ()) :
    ∃ summary sess,
      (startBrowser svc p u oh env).1 = .ok summary ∧
      mapGet (startBrowser svc p u oh env).2.1.activeSessions p = some sess ∧
      summary.headless = resolveHeadless oh prof.defaultHeadless ∧
      sess.headless = resolveHeadless oh prof.defaultHeadless ∧
      (getBrowserStatus (startBrowser svc p u oh env).2.1 p now2).map
          SessionStatus.headless =
        some (resolveHeadless oh prof.defaultHeadless) ∧
      (∀ hq, oh = some hq → resolveHeadless oh prof.defaultHeadless = hq) ∧
      (∀ hq, oh = none → prof.defaultHeadless = some hq →
        resolveHeadless oh prof.defaultHeadless = hq) ∧
      (oh = none → prof.defaultHeadless = none →
        resolveHeadless oh prof.defaultHeadless = false) := by
  rw [startBrowser_success_eval svc p u oh env prof b pg h1 h2 hp hl hn]
  refine ⟨_, _, rfl, mapGet_mapSet_self _ _ _, rfl, rfl, ?_, ?_, ?_, ?_⟩
  · simp [getBrowserStatus, mapGet_mapSet_self]
  · intro hq hoh
    simp [resolveHeadless, hoh]
  · intro hq hoh hdh
    simp [resolveHeadless, hoh, hdh]
  · intro hoh hdh
    simp [resolveHeadless, hoh, hdh]

/-- Witness for C6: a start with no request override on a profile whose
default is headless. -/
theorem headless_resolution_witness :
    ∃ summary sess,
      (startBrowser ServiceState.initial "abc" none none sampleOkStartEnv).1 =
        .ok summary ∧
      mapGet (startBrowser ServiceState.initial "abc" none none
          sampleOkStartEnv).2.1.activeSessions "abc" = some sess ∧
      summary.headless = resolveHeadless none sampleProfile.defaultHeadless ∧
      sess.headless = resolveHeadless none sampleProfile.defaultHeadless ∧
      (getBrowserStatus (startBrowser ServiceState.initial "abc" none none
          sampleOkStartEnv).2.1 "abc" 3000).map SessionStatus.headless =
        some (resolveHeadless none sampleProfile.defaultHeadless) ∧
      (∀ hq, (none : Option Bool) = some hq →
        resolveHeadless none sampleProfile.defaultHeadless = hq) ∧
      (∀ hq, (none : Option Bool) = none → sampleProfile.defaultHeadless = some hq →
        resolveHeadless none sampleProfile.defaultHeadless = hq) ∧
      ((none : Option Bool) = none → sampleProfile.defaultHeadless = none →
        resolveHeadless none sampleProfile.defaultHeadless = false) :=
  headless_resolution ServiceState.initial "abc" none none sampleOkStartEnv
    sampleProfile 1 2 3000 (by decide) rfl rfl rfl rfl

/-- Claim C7: when the engine launch throws, an error message matching one of
the executable-not-found patterns yields a `BROWSER_NOT_FOUND` error and any
other message yields a `LAUNCH_FAILED` error whose message wraps and whose
`originalError` preserves the original launch error; the pattern is exactly
the four substring tests of the source. -/
theorem launch_failure_classification (svc : ServiceState) (p : String)
    (u : Option String) (oh : Option Bool) (env : StartEnv) (prof : Profile)
    (le : EngineError)
    (h1 : p ∉ svc.startingProfiles) (h2 : mapGet svc.activeSessions p = none)
    (hp : env.profileLookup = some prof) (hl : env.launch = .error le) :
    (execNotFoundMessage le.message = true →
      (startBrowser svc p u oh env).1 = .error (.browserNotFound le)) ∧
    (execNotFoundMessage le.message = false →
      (startBrowser svc p u oh env).1 =
        .error (.launchFailed ("Failed to launch browser: " ++ le.message) le)) ∧
    (∀ m, execNotFoundMessage m =
      (jsIncludes m "executable" || jsIncludes m "ENOENT" ||
        jsIncludes m "spawn" || jsIncludes m "not found")) := by
  have hhas : mapHas svc.activeSessions p = false := by simp [mapHas, h2]
  refine ⟨?_, ?_, fun m => rfl⟩
  · intro hmatch
    simp [startBrowser, h1, hhas, hp, hl, hmatch, startCleanup, h2]
  · intro hmatch
    simp [startBrowser, h1, hhas, hp, hl, hmatch, startCleanup, h2]

/-- Witness for C7: a spawn-pattern message and an unrelated message. -/
theorem launch_failure_classification_witness :
    ((execNotFoundMessage "spawn ENOENT" = true →
      (startBrowser ServiceState.initial "abc" none none
          { sampleOkStartEnv with launch := .error ⟨"spawn ENOENT"⟩ }).1 =
        .error (.browserNotFound ⟨"spawn ENOENT"⟩)) ∧
    (execNotFoundMessage "spawn ENOENT" = false →
      (startBrowser ServiceState.initial "abc" none none
          { sampleOkStartEnv with launch := .error ⟨"spawn ENOENT"⟩ }).1 =
        .error (.launchFailed ("Failed to launch browser: " ++ "spawn ENOENT")
          ⟨"spawn ENOENT"⟩)) ∧
    (∀ m, execNotFoundMessage m =
      (jsIncludes m "executable" || jsIncludes m "ENOENT" ||
        jsIncludes m "spawn" || jsIncludes m "not found"))) ∧
    execNotFoundMessage "spawn ENOENT" = true ∧
    execNotFoundMessage "engine exploded" = false :=
  ⟨launch_failure_classification ServiceState.initial "abc" none none
      { sampleOkStartEnv with launch := .error ⟨"spawn ENOENT"⟩ }
      sampleProfile ⟨"spawn ENOENT"⟩ (by decide) rfl rfl rfl,
   by decide, by decide⟩

/-- Helper: evaluation of `startBrowser` when the profile lookup returns
null: the profile-not-found error propagates, with no engine call and the
service state restored. -/
theorem startBrowser_profileMissing_eval (svc : ServiceState) (p : String)
    (u : Option String) (oh : Option Bool) (env : StartEnv)
    (h1 : p ∉ svc.startingProfiles) (h2 : mapGet svc.activeSessions p = none)
    (hp : env.profileLookup = none) :
    startBrowser svc p u oh env = (.error (.profileNotFound p), svc, []) := by
  have hhas : mapHas svc.activeSessions p = false := by simp [mapHas, h2]
  simp [startBrowser, h1, hhas, hp, startCleanup, h2, startFinally,
    List.erase_cons_head]

/-- Helper: evaluation of `startBrowser` when the engine launch throws: the
classified error propagates, only the launch was attempted, and the service
state is restored. -/
theorem startBrowser_launchErr_eval (svc : ServiceState) (p : String)
    (u : Option String) (oh : Option Bool) (env : StartEnv) (prof : Profile)
    (le : EngineError)
    (h1 : p ∉ svc.startingProfiles) (h2 : mapGet svc.activeSessions p = none)
    (hp : env.profileLookup = some prof) (hl : env.launch = .error le) :
    startBrowser svc p u oh env =
      (.error (if execNotFoundMessage le.message then .browserNotFound le
        else .launchFailed ("Failed to launch browser: " ++ le.message) le),
       svc, [Ev.launch (resolveHeadless oh prof.defaultHeadless)]) := by
  have hhas : mapHas svc.activeSessions p = false := by simp [mapHas, h2]
  by_cases hmatch : execNotFoundMessage le.message <;>
    simp [startBrowser, h1, hhas, hp, hl, hmatch, startCleanup, h2,
      startFinally, List.erase_cons_head]

/-- Helper: evaluation of `startBrowser` when navigation throws: the created
registry entry is rolled back (its handle closed, a close error logged), the
navigation error propagates, and the service state is restored. -/
theorem startBrowser_navErr_eval (svc : ServiceState) (p : String)
    (u : Option String) (oh : Option Bool) (env : StartEnv) (prof : Profile)
    (b pg : Nat) (ne : EngineError)
    (h1 : p ∉ svc.startingProfiles) (h2 : mapGet svc.activeSessions p = none)
    (hp : env.profileLookup = some prof) (hl : env.launch = .ok (b, pg))
    (hn : env.navResult = .error ne) :
    startBrowser svc p u oh env =
      (.error (.navigation ne), svc,
       Ev.launch (resolveHeadless oh prof.defaultHeadless) ::
        Ev.registerDisconnect p ::
        Ev.goto pg (u.getD defaultTestUrl) "networkidle2" 30000 ::
        (match env.closeResult with
         | .ok _ => [Ev.close b]
         | .error ce =>
             [Ev.close b,
              Ev.logError ("Error closing browser after failed start: " ++
                ce.message)])) := by
  have hhas : mapHas svc.activeSessions p = false := by simp [mapHas, h2]
  cases hc : env.closeResult <;>
    simp [startBrowser, h1, hhas, hp, hl, hn, hc, startCleanup, startFinally,
      mapGet_mapSet_self, mapDelete_mapSet_of_get_none h2, h2,
      List.erase_cons_head]

/-- Helper: whatever the environment outcomes, `startBrowser` leaves
`startingProfiles` as it found it (the guard acquired after the checks is
released on every exit path). -/
theorem startBrowser_startingProfiles_eq (svc : ServiceState) (p : String)
    (u : Option String) (oh : Option Bool) (env : StartEnv)
    (h1 : p ∉ svc.startingProfiles) :
    (startBrowser svc p u oh env).2.1.startingProfiles = svc.startingProfiles := by
  cases hg : mapGet svc.activeSessions p with
  | some sess =>
      have hhas : mapHas svc.activeSessions p = true := by simp [mapHas, hg]
      simp [startBrowser, h1, hhas]
  | none =>
      cases hp : env.profileLookup with
      | none => rw [startBrowser_profileMissing_eval svc p u oh env h1 hg hp]
      | some prof =>
          cases hl : env.launch with
          | error le =>
              rw [startBrowser_launchErr_eval svc p u oh env prof le h1 hg hp hl]
          | ok bp =>
              obtain ⟨b, pg⟩ := bp
              cases hn : env.navResult with
              | error ne =>
                  rw [startBrowser_navErr_eval svc p u oh env prof b pg ne
                    h1 hg hp hl hn]
              | ok v =>
                  cases v
                  rw [startBrowser_success_eval svc p u oh env prof b pg
                    h1 hg hp hl hn]

/-- Helper: whatever the environment outcomes, `stopBrowser` leaves
`stoppingProfiles` as it found it when no stop for the profile was already in
flight. -/
theorem stopBrowser_stoppingProfiles_eq (svc : ServiceState) (p : String)
    (cr : Except EngineError Unit) (h : p ∉ svc.stoppingProfiles) :
    (stopBrowser svc p cr).2.1.stoppingProfiles = svc.stoppingProfiles := by
  cases hg : mapGet svc.activeSessions p <;> cases cr <;>
    simp [stopBrowser, h, hg, List.erase_cons_head]

/-- Claim C3: `startBrowser` is atomic-or-rolled-back: once the guards pass,
any failure (profile lookup, launch, or navigation) leaves no registry entry
for the profile and releases the guard; if a registry entry had been created
(launch succeeded), the failure is the navigation error itself — a close
error never replaces it — the handle's close is invoked during rollback, and
a close error is logged. -/
theorem start_atomic_or_rolled_back (svc : ServiceState) (p : String)
    (u : Option String) (oh : Option Bool) (env : StartEnv) (e : StartError)
    (h1 : p ∉ svc.startingProfiles) (h2 : mapGet svc.activeSessions p = none)
    (herr : (startBrowser svc p u oh env).1 = .error e) :
    mapGet (startBrowser svc p u oh env).2.1.activeSessions p = none ∧
    p ∉ (startBrowser svc p u oh env).2.1.startingProfiles ∧
    (∀ prof b pg, env.profileLookup = some prof → env.launch = .ok (b, pg) →
      ∃ ne, env.navResult = .error ne ∧ e = .navigation ne ∧
        Ev.close b ∈ (startBrowser svc p u oh env).2.2 ∧
        (∀ ce, env.closeResult = .error ce →
          ∃ m, Ev.logError m ∈ (startBrowser svc p u oh env).2.2)) := by
  cases hp : env.profileLookup with
  | none =>
      rw [startBrowser_profileMissing_eval svc p u oh env h1 h2 hp]
      refine ⟨h2, h1, ?_⟩
      intro prof b pg hc
      exact absurd hc (by simp)
  | some prof =>
      cases hl : env.launch with
      | error le =>
          rw [startBrowser_launchErr_eval svc p u oh env prof le h1 h2 hp hl]
          refine ⟨h2, h1, ?_⟩
          intro prof2 b pg hc hc2
          exact absurd hc2 (by simp)
      | ok bp =>
          obtain ⟨b, pg⟩ := bp
          cases hn : env.navResult with
          | ok v =>
              cases v
              rw [startBrowser_success_eval svc p u oh env prof b pg
                h1 h2 hp hl hn] at herr
              exact absurd herr (by simp)
          | error ne =>
              have heval := startBrowser_navErr_eval svc p u oh env prof b pg ne
                h1 h2 hp hl hn
              rw [heval] at herr ⊢
              have he : e = .navigation ne := by
                simpa using herr.symm
              refine ⟨h2, h1, ?_⟩
              intro prof2 b2 pg2 hc hc2
              have hb : b = b2 ∧ pg = pg2 := by simpa using hc2
              obtain ⟨rfl, rfl⟩ := hb
              refine ⟨ne, rfl, he, ?_, ?_⟩
              · cases hc3 : env.closeResult <;> simp [hc3]
              · intro ce hce
                rw [hce]
                exact ⟨"Error closing browser after failed start: " ++ ce.message,
                  by simp⟩

/-- Witness for C3: a start whose navigation times out, on an initially empty
service; the registry ends empty, the guard is released, and the rollback
closed handle 1. -/
theorem start_atomic_or_rolled_back_witness :
    mapGet (startBrowser ServiceState.initial "abc" none none
        { sampleOkStartEnv with navResult := .error ⟨"timeout"⟩ }).2.1.activeSessions
      "abc" = none ∧
    "abc" ∉ (startBrowser ServiceState.initial "abc" none none
        { sampleOkStartEnv with navResult := .error ⟨"timeout"⟩ }).2.1.startingProfiles ∧
    (∀ prof b pg,
      ({ sampleOkStartEnv with navResult := .error ⟨"timeout"⟩ } : StartEnv).profileLookup
          = some prof →
      ({ sampleOkStartEnv with navResult := .error ⟨"timeout"⟩ } : StartEnv).launch
          = .ok (b, pg) →
      ∃ ne, ({ sampleOkStartEnv with navResult := .error ⟨"timeout"⟩ } : StartEnv).navResult
            = .error ne ∧
        (.navigation ⟨"timeout"⟩ : StartError) = .navigation ne ∧
        Ev.close b ∈ (startBrowser ServiceState.initial "abc" none none
          { sampleOkStartEnv with navResult := .error ⟨"timeout"⟩ }).2.2 ∧
        (∀ ce, ({ sampleOkStartEnv with navResult := .error ⟨"timeout"⟩ } : StartEnv).closeResult
            = .error ce →
          ∃ m, Ev.logError m ∈ (startBrowser ServiceState.initial "abc" none none
            { sampleOkStartEnv with navResult := .error ⟨"timeout"⟩ }).2.2)) :=
  start_atomic_or_rolled_back ServiceState.initial "abc" none none
    { sampleOkStartEnv with navResult := .error ⟨"timeout"⟩ }
    (.navigation ⟨"timeout"⟩) (by decide) rfl rfl

/-- Claim C10: the disconnect callback registered during `startBrowser`
closes over the profile id only and deletes that registry key
unconditionally: firing it with the key absent is a no-op, firing it always
leaves no entry under the key even if the entry now belongs to a different
session, and a concrete stale firing after stop-then-restart removes the new
session's entry. -/
theorem disconnect_handler_unconditional :
    (∀ svc p, mapGet svc.activeSessions p = none → disconnectHandler p svc = svc) ∧
    (∀ svc p, (keys svc.activeSessions).Nodup →
      mapGet (disconnectHandler p svc).activeSessions p = none) ∧
    (∀ svc p u oh env prof b pg, p ∉ svc.startingProfiles →
      mapGet svc.activeSessions p = none →
      env.profileLookup = some prof → env.launch = .ok (b, pg) →
      env.navResult = .ok () →
      Ev.registerDisconnect p ∈ (startBrowser svc p u oh env).2.2) ∧
    ((mapGet staleStart2.activeSessions "abc").map Session.browser = some 3 ∧
      mapGet (disconnectHandler "abc" staleStart2).activeSessions "abc" = none) := by
  refine ⟨?_, ?_, ?_, by decide, by decide⟩
  · intro svc p h
    simp [disconnectHandler, mapDelete_eq_of_get_none h]
  · intro svc p h
    exact mapGet_mapDelete_self p h
  · intro svc p u oh env prof b pg h1 h2 hp hl hn
    rw [startBrowser_success_eval svc p u oh env prof b pg h1 h2 hp hl hn]
    simp

/-- Witness for C10: firing the handler on an empty registry is a no-op. -/
theorem disconnect_handler_unconditional_witness :
    disconnectHandler "zz" ServiceState.initial = ServiceState.initial :=
  disconnect_handler_unconditional.1 ServiceState.initial "zz" rfl

/-- Claim C1: in every state reachable by any interleaving of calls, the
registry holds at most one session per profile id; `startBrowser` fails with
the already-starting error whenever the profile is in `startingProfiles`
(checked first, regardless of the registry), and with the
`SESSION_ACTIVE` error (carrying the profile id) when it is not but a
session is registered. -/
theorem at_most_one_session_per_profile (s : CState) (hs : Reachable s) :
    (∀ p, (keys s.svc.activeSessions).count p ≤ 1) ∧
    (∀ (svc : ServiceState) (p : String) (u : Option String) (oh : Option Bool)
      (env : StartEnv), p ∈ svc.startingProfiles →
      (startBrowser svc p u oh env).1 = .error (.alreadyStarting p)) ∧
    (∀ (svc : ServiceState) (p : String) (u : Option String) (oh : Option Bool)
      (env : StartEnv), p ∉ svc.startingProfiles →
      mapHas svc.activeSessions p = true →
      (startBrowser svc p u oh env).1 = .error (.sessionActive p)) := by
  refine ⟨?_, ?_, ?_⟩
  · intro p
    exact List.nodup_iff_count_le_one.mp (reachable_inv hs).1 p
  · intro svc p u oh env hmem
    simp [startBrowser, hmem]
  · intro svc p u oh env h1 h2
    simp [startBrowser, h1, h2]

/-- Witness for C1 at the initial (empty, trivially reachable) state. -/
theorem at_most_one_session_per_profile_witness :
    (∀ p, (keys CState.initial.svc.activeSessions).count p ≤ 1) ∧
    (∀ (svc : ServiceState) (p : String) (u : Option String) (oh : Option Bool)
      (env : StartEnv), p ∈ svc.startingProfiles →
      (startBrowser svc p u oh env).1 = .error (.alreadyStarting p)) ∧
    (∀ (svc : ServiceState) (p : String) (u : Option String) (oh : Option Bool)
      (env : StartEnv), p ∉ svc.startingProfiles →
      mapHas svc.activeSessions p = true →
      (startBrowser svc p u oh env).1 = .error (.sessionActive p)) :=
  at_most_one_session_per_profile CState.initial Relation.ReflTransGen.refl

/-- Claim C2: in every reachable state, a profile id is in
`startingProfiles` exactly when a `startBrowser` call for it is in flight
and in `stoppingProfiles` exactly when a `stopBrowser` call for it is in
flight (so when no call for `p` is in flight, `p` is in neither guard set);
moreover both methods release the guard on every exit path of a single
invocation. -/
theorem guard_sets_scoped_to_inflight (s : CState) (hs : Reachable s)
    (p : String) :
    (p ∈ s.svc.startingProfiles ↔ p ∈ inflightStarts s.tasks) ∧
    (p ∈ s.svc.stoppingProfiles ↔ p ∈ inflightStops s.tasks) ∧
    (∀ (svc : ServiceState) (u : Option String) (oh : Option Bool)
      (env : StartEnv), p ∉ svc.startingProfiles →
      p ∉ (startBrowser svc p u oh env).2.1.startingProfiles) ∧
    (∀ (svc : ServiceState) (cr : Except EngineError Unit),
      p ∉ svc.stoppingProfiles →
      p ∉ (stopBrowser svc p cr).2.1.stoppingProfiles) := by
  obtain ⟨hk, hsn, htn, hsp, htp⟩ := reachable_inv hs
  refine ⟨hsp.mem_iff, htp.mem_iff, ?_, ?_⟩
  · intro svc u oh env h1
    rw [startBrowser_startingProfiles_eq svc p u oh env h1]
    exact h1
  · intro svc cr h1
    rw [stopBrowser_stoppingProfiles_eq svc p cr h1]
    exact h1

/-- Witness for C2 at the initial (empty, trivially reachable) state. -/
theorem guard_sets_scoped_to_inflight_witness :
    ("w" ∈ CState.initial.svc.startingProfiles ↔
      "w" ∈ inflightStarts CState.initial.tasks) ∧
    ("w" ∈ CState.initial.svc.stoppingProfiles ↔
      "w" ∈ inflightStops CState.initial.tasks) ∧
    (∀ (svc : ServiceState) (u : Option String) (oh : Option Bool)
      (env : StartEnv), "w" ∉ svc.startingProfiles →
      "w" ∉ (startBrowser svc "w" u oh env).2.1.startingProfiles) ∧
    (∀ (svc : ServiceState) (cr : Except EngineError Unit),
      "w" ∉ svc.stoppingProfiles →
      "w" ∉ (stopBrowser svc "w" cr).2.1.stoppingProfiles) :=
  guard_sets_scoped_to_inflight CState.initial Relation.ReflTransGen.refl "w"

end BrowserShield
